import Mathlib

/-!
# Verification of the APK static-analysis and risk-scoring engine

Shallow embedding of `src/app.py` (functions `to_jsonable` and `analyze_apk`).
The androguard `APK` parser object is an external collaborator; it is modelled
as a record of getters, each returning `Except Err α` where `Except.error e`
models the getter raising a Python exception with message `e`.
-/

/-- Python exception messages. -/
abbrev Err := String

/-! ## Python values, for `to_jsonable` (src/app.py lines 41-68)

`PyObj` models the Python values that can reach `to_jsonable`: `None`,
booleans, ints, floats (payload modelled opaquely as a rational), strings,
`pathlib.Path` (whose `str()` is the carried string), `bytes` (whose
lossy utf-8 decode is the carried string), mappings, sequences
(list/tuple/set, iteration order as carried), and arbitrary other objects
(whose `str()` is the carried string). -/
inductive PyObj : Type where
  | pynone : PyObj
  | pybool (b : Bool) : PyObj
  | pyint (n : Int) : PyObj
  | pyfloat (q : Rat) : PyObj
  | pystr (s : String) : PyObj
  | pypath (s : String) : PyObj
  | pybytes (s : String) : PyObj
  | pydict (kvs : List (PyObj × PyObj)) : PyObj
  | pylist (xs : List PyObj) : PyObj
  | pyobj (s : String) : PyObj

/-- Models Python `str(o)`: the identity on strings (which is all the
idempotence argument needs); on other shapes it returns the conventional
rendering carried by, or derived from, the value. -/
def pyStr : PyObj → String
  | .pynone => "None"
  | .pybool true => "True"
  | .pybool false => "False"
  | .pyint n => toString n
  | .pyfloat q => toString q
  | .pystr s => s
  | .pypath s => s
  | .pybytes s => s
  | .pydict _ => "dict"
  | .pylist _ => "list"
  | .pyobj s => s

mutual

/-- Models `to_jsonable` (src/app.py lines 41-68): primitives pass through,
`Path`/`bytes`/fallback objects become their string form, mappings recurse
with keys coerced via `str`, sequences recurse element-wise. -/
def to_jsonable : PyObj → PyObj
  | .pynone => .pynone
  | .pybool b => .pybool b
  | .pyint n => .pyint n
  | .pyfloat q => .pyfloat q
  | .pystr s => .pystr s
  | .pypath s => .pystr s
  | .pybytes s => .pystr s
  | .pydict kvs => .pydict (to_jsonable_pairs kvs)
  | .pylist xs => .pylist (to_jsonable_elems xs)
  | .pyobj s => .pystr s

/-- Element-wise recursion of `to_jsonable` over a sequence
(the comprehension on src/app.py line 63). -/
def to_jsonable_elems : List PyObj → List PyObj
  | [] => []
  | x :: xs => to_jsonable x :: to_jsonable_elems xs

/-- Key/value recursion of `to_jsonable` over a mapping, keys coerced
with `str` (the comprehension on src/app.py line 61). -/
def to_jsonable_pairs : List (PyObj × PyObj) → List (PyObj × PyObj)
  | [] => []
  | (k, v) :: rest => (.pystr (pyStr k), to_jsonable v) :: to_jsonable_pairs rest

end

/-! ## List-of-characters string helpers

Python `p.startswith(dp)` and `needle in hay` modelled on character lists. -/

/-- `chStartsWith hay needle`: `hay` starts with `needle`. -/
def chStartsWith : List Char → List Char → Bool
  | _, [] => true
  | [], _ :: _ => false
  | c :: cs, d :: ds => c = d && chStartsWith cs ds

/-- `chContains hay needle`: `needle` occurs as a contiguous run in `hay`. -/
def chContains (hay needle : List Char) : Bool :=
  match hay with
  | [] => chStartsWith [] needle
  | _ :: t => chStartsWith hay needle || chContains t needle

/-- Python `dp in p` (substring containment), as used by the scorer. -/
def strContains (hay needle : String) : Bool :=
  chContains hay.toList needle.toList

/-- Python `p.startswith(dp)`. -/
def pyStartsWith (p dp : String) : Bool :=
  chStartsWith p.toList dp.toList

/-! ## URL harvest (src/app.py lines 140-161)

The regex `https?://` followed by one or more characters of the bracketed
class, compiled with `re.IGNORECASE`, and `re.findall`, are modelled
directly on character lists: a match is the literal scheme
(case-insensitive) followed by a maximal non-empty run of class
characters; `findall` scans left to right collecting non-overlapping
matches, advancing one character where no match starts. -/

/-- The regex character class: `\w` (modelled as ASCII letters, digits and
underscore) together with the listed URI punctuation (the apostrophe is
`Char.ofNat 39`). -/
def urlBodyChar (c : Char) : Bool :=
  c.isAlpha || c.isDigit || c = '_' ||
    ['-', '.', '~', ':', '/', '?', '#', '[', ']', '@', '!', '$', '&',
      Char.ofNat 39, '(', ')', '*', '+', ',', ';', '=', '%'].contains c

/-- Case-insensitive comparison of a subject character against a lowercase
pattern character (the effect of `re.IGNORECASE` on the literal scheme). -/
def lowEq (c d : Char) : Bool := c.toLower = d

/-- Match `://` followed by a maximal non-empty run of `urlBodyChar` at the
head of the list; `pre` is the already-matched scheme part. Returns the
full match together with the unconsumed rest. -/
def matchSchemeTail (pre : List Char) : List Char → Option (List Char × List Char)
  | a :: b :: c :: rest =>
    if a = ':' && b = '/' && c = '/' then
      if (rest.takeWhile urlBodyChar).isEmpty then none
      else some (pre ++ a :: b :: c :: rest.takeWhile urlBodyChar,
                 rest.drop (rest.takeWhile urlBodyChar).length)
    else none
  | _ => none

/-- Match the URL pattern at the head of the list: `http`
(case-insensitive), a greedy optional `s`, then `://` and a non-empty body
run. -/
def matchUrlAt : List Char → Option (List Char × List Char)
  | c1 :: c2 :: c3 :: c4 :: rest =>
    if lowEq c1 'h' && lowEq c2 't' && lowEq c3 't' && lowEq c4 'p' then
      match rest with
      | c5 :: rest2 =>
        if lowEq c5 's' then matchSchemeTail [c1, c2, c3, c4, c5] rest2
        else matchSchemeTail [c1, c2, c3, c4] rest
      | [] => none
    else none
  | _ => none

theorem matchSchemeTail_rest_lt {pre l m rest}
    (h : matchSchemeTail pre l = some (m, rest)) : rest.length < l.length := by
  match l with
  | [] => simp [matchSchemeTail] at h
  | [a] => simp [matchSchemeTail] at h
  | [a, b] => simp [matchSchemeTail] at h
  | a :: b :: c :: t =>
    simp only [matchSchemeTail] at h
    split at h
    · split at h
      · exact absurd h (by simp)
      · rw [Option.some.injEq, Prod.mk.injEq] at h
        rw [← h.2]
        simp only [List.length_drop, List.length_cons]
        omega
    · exact absurd h (by simp)

theorem matchUrlAt_rest_lt {l m rest}
    (h : matchUrlAt l = some (m, rest)) : rest.length < l.length := by
  match l with
  | [] => simp [matchUrlAt] at h
  | [c1] => simp [matchUrlAt] at h
  | [c1, c2] => simp [matchUrlAt] at h
  | [c1, c2, c3] => simp [matchUrlAt] at h
  | c1 :: c2 :: c3 :: c4 :: t =>
    simp only [matchUrlAt] at h
    split at h
    · split at h
      · split at h
        · have := matchSchemeTail_rest_lt h
          simp only [List.length_cons] at this ⊢
          omega
        · have := matchSchemeTail_rest_lt h
          simp only [List.length_cons] at this ⊢
          omega
      · exact absurd h (by simp)
    · exact absurd h (by simp)

/-- `re.findall` of the URL pattern over a character list. -/
def findall (l : List Char) : List String :=
  match h : matchUrlAt l with
  | some (m, rest) => String.mk m :: findall rest
  | none =>
    match l with
    | [] => []
    | _ :: cs => findall cs
termination_by l.length
decreasing_by
  · exact matchUrlAt_rest_lt h
  · simp only [List.length_cons]; omega

/-- `url_regex.findall(s)` on a Python string. -/
def url_findall (s : String) : List String := findall s.toList

/-! ## Sorting and deduplication -/

/-- Python `sorted(xs)` on strings (ascending lexicographic order). -/
def pysorted (xs : List String) : List String := xs.insertionSort (· ≤ ·)

/-- Python `sorted(set(xs))`: deduplicate, then sort ascending. -/
def pySortedSet (xs : List String) : List String := pysorted xs.dedup

theorem mem_pysorted {xs : List String} {p : String} :
    p ∈ pysorted xs ↔ p ∈ xs :=
  List.mem_insertionSort (· ≤ ·)

theorem sorted_pysorted (xs : List String) :
    (pysorted xs).Sorted (· ≤ ·) :=
  List.sorted_insertionSort (· ≤ ·) xs

theorem nodup_pysorted {xs : List String} (h : xs.Nodup) :
    (pysorted xs).Nodup :=
  (List.perm_insertionSort (· ≤ ·) xs).nodup_iff.mpr h

theorem mem_pySortedSet {xs : List String} {p : String} :
    p ∈ pySortedSet xs ↔ p ∈ xs := by
  rw [pySortedSet, mem_pysorted, List.mem_dedup]

theorem sorted_pySortedSet (xs : List String) :
    (pySortedSet xs).Sorted (· ≤ ·) :=
  sorted_pysorted _

theorem nodup_pySortedSet (xs : List String) :
    (pySortedSet xs).Nodup :=
  nodup_pysorted (List.nodup_dedup xs)

/-! ## Data model for `analyze_apk` (src/app.py lines 71-233) -/

/-- The fixed dangerous-permission allow-list (src/app.py lines 101-120). -/
def dangerous_perm_table : List String :=
  ["android.permission.SEND_SMS",
   "android.permission.READ_SMS",
   "android.permission.RECEIVE_SMS",
   "android.permission.CALL_PHONE",
   "android.permission.RECORD_AUDIO",
   "android.permission.READ_CONTACTS",
   "android.permission.WRITE_CONTACTS",
   "android.permission.READ_CALL_LOG",
   "android.permission.WRITE_CALL_LOG",
   "android.permission.READ_EXTERNAL_STORAGE",
   "android.permission.WRITE_EXTERNAL_STORAGE",
   "android.permission.MANAGE_EXTERNAL_STORAGE",
   "android.permission.ACCESS_FINE_LOCATION",
   "android.permission.ACCESS_COARSE_LOCATION",
   "android.permission.SYSTEM_ALERT_WINDOW",
   "android.permission.REQUEST_INSTALL_PACKAGES",
   "android.permission.PACKAGE_USAGE_STATS",
   "android.permission.CAMERA"]

/-- src/app.py line 121: `any(p.startswith(dp) for dp in ...)`. -/
def isDangerous (p : String) : Bool :=
  dangerous_perm_table.any (fun dp => pyStartsWith p dp)

/-- An entry of `a.get_files()`: Python strings are harvested for URLs,
anything else is skipped by the `isinstance(f, str)` check on line 154. -/
inductive FileEntry : Type where
  | str (s : String) : FileEntry
  | nonstr (o : String) : FileEntry
deriving DecidableEq

/-- A certificate object returned by the parser: either its
`issuer`/`subject`/`serial_number` attributes can be read and stringified
(`good`, each attribute optional as `getattr(c, _, None)` may give None),
or doing so raises and Python falls back to `str(c)` (`bad`, carrying that
string form). -/
inductive CertObj : Type where
  | good (issuer subject serial : Option String) : CertObj
  | bad (s : String) : CertObj
deriving DecidableEq

/-- A certificate entry of the output: the dict built on src/app.py lines
172-176, or the fallback string appended on line 178. -/
inductive CertOut : Type where
  | fields (issuer subject serial : Option String) : CertOut
  | fallback (s : String) : CertOut
deriving DecidableEq

/-- The per-certificate body of the loop on src/app.py lines 167-178. -/
def certOut : CertObj → CertOut
  | .good i s n => .fields i s n
  | .bad s => .fallback s

/-- The androguard `APK` collaborator, as a record of getters; `.error e`
models the call raising an exception with message `e`. Getters whose Python
result is combined with `or []` (so that a falsy `None` becomes the empty
list) carry an `Option`. `get_manifest_text` models the value of
`manifest_xml` computed on line 146 (`.toxml()` or `str(...)` of
`get_android_manifest_xml()`). Component descriptors and file entries are
opaque to the analysis and carried as strings. -/
structure APK : Type where
  get_package : Except Err String
  get_app_name : Except Err String
  get_androidversion_name : Except Err String
  get_androidversion_code : Except Err String
  is_debuggable : Except Err Bool
  get_permissions : Except Err (Option (List String))
  get_receivers : Except Err (Option (List String))
  get_services : Except Err (Option (List String))
  get_activities : Except Err (Option (List String))
  get_manifest_text : Except Err String
  get_files : Except Err (List FileEntry)
  get_certificates : Except Err (Option (List CertObj))

/-! ## Field extraction -/

/-- src/app.py lines 92-95: debuggable, guarded; an exception yields None. -/
def extract_debuggable (a : APK) : Option Bool :=
  match a.is_debuggable with
  | .ok b => some b
  | .error _ => none

/-- src/app.py line 98: `sorted(set(a.get_permissions() or []))`. -/
def permsOf (ps : Option (List String)) : List String :=
  pySortedSet (ps.getD [])

/-- src/app.py lines 121-122: the dangerous sublist, re-sorted. -/
def dangerousOf (permissions : List String) : List String :=
  pysorted (permissions.filter isDangerous)

/-- The guarded component getters of src/app.py lines 125-138: an exception
or a falsy result yields the empty list. -/
def extract_components (g : Except Err (Option (List String))) : List String :=
  match g with
  | .ok r => r.getD []
  | .error _ => []

/-- src/app.py lines 164-181: certificates, guarded; an exception around
the whole block yields the empty list. -/
def extract_certificates (g : Except Err (Option (List CertObj))) : List CertOut :=
  match g with
  | .ok cs => (cs.getD []).map certOut
  | .error _ => []

/-- src/app.py lines 140-161: URLs from the manifest text and from the
string entries of the internal file list, pooled, deduplicated and sorted;
a failing source contributes no matches (the two `except: pass` blocks). -/
def harvest_urls (manifest : Except Err String)
    (files : Except Err (List FileEntry)) : List String :=
  let fromManifest := match manifest with
    | .ok m => url_findall m
    | .error _ => []
  let fromFiles := match files with
    | .ok fs => fs.flatMap (fun fe => match fe with
        | .str s => url_findall s
        | .nonstr _ => [])
    | .error _ => []
  pySortedSet (fromManifest ++ fromFiles)

/-! ## Risk scoring (src/app.py lines 183-217) -/

def reason_debuggable : String :=
  "App is debuggable (should be disabled in release builds)"

def reason_many_dangerous : String :=
  "Multiple dangerous permissions declared"

def reason_some_dangerous : String :=
  "Some dangerous permissions declared"

def reason_many_urls : String :=
  "Lots of embedded URLs (possible trackers/endpoints)"

def reason_overlay : String :=
  "Can draw over other apps (SYSTEM_ALERT_WINDOW)"

def reason_install_pkgs : String :=
  "Can request to install packages (side-loading)"

/-- The risk accumulation of src/app.py lines 184-204: additive score
contributions and appended reasons, in rule order, before the clamp on
line 207. `dbg` is the `findings["debuggable"]` value, truthy exactly when
it is `some true`. -/
def score_pre (dbg : Option Bool) (dp urls : List String) : Int × List String :=
  let s0 : Int × List String := (0, [])
  let s1 := if dbg = some true then (s0.1 + 1, s0.2 ++ [reason_debuggable]) else s0
  let s2 :=
    if dp.length ≥ 3 then (s1.1 + 2, s1.2 ++ [reason_many_dangerous])
    else if dp.length > 0 then (s1.1 + 1, s1.2 ++ [reason_some_dangerous])
    else s1
  let s3 := if urls.length > 10 then (s2.1 + 1, s2.2 ++ [reason_many_urls]) else s2
  let s4 :=
    if dp.any (fun p => strContains p "SYSTEM_ALERT_WINDOW") then
      (s3.1 + 1, s3.2 ++ [reason_overlay])
    else s3
  let s5 :=
    if dp.any (fun p => strContains p "REQUEST_INSTALL_PACKAGES") then
      (s4.1 + 1, s4.2 ++ [reason_install_pkgs])
    else s4
  s5

/-- src/app.py line 207: `risk = max(0, min(10, risk))`. -/
def risk_score_of (dbg : Option Bool) (dp urls : List String) : Int :=
  max 0 (min 10 (score_pre dbg dp urls).1)

/-- src/app.py lines 208-213: the threshold mapping from score to label. -/
def risk_label_of (risk : Int) : String :=
  if risk ≤ 2 then "Low" else if risk ≤ 5 then "Medium" else "High"

/-- src/app.py lines 220-228: the fixed label → advisory message table. -/
def recommendationOf (label : String) : String × String :=
  if label = "High" then
    ("Install caution is advised (High risk).",
     "Dangerous permissions or behavior detected. Avoid installing from untrusted sources.")
  else if label = "Medium" then
    ("Recommended installation (Medium risk).",
     "Multiple risk factors detected. Verify the source and review permissions before installation.")
  else
    ("Generally safe (Low risk).",
     "No significant risk factors detected. Verify the source.")

/-! ## Result assembly -/

/-- The success-case `findings` dict of `analyze_apk` (keys assigned on
src/app.py lines 83-231), minus the constant `ok: true` marker which is
carried by the `AnalyzeResult.success` constructor. -/
structure Findings : Type where
  package_name : String
  app_name : String
  version_name : String
  version_code : String
  debuggable : Option Bool
  permissions : List String
  dangerous_permissions : List String
  receivers : List String
  services : List String
  activities : List String
  urls : List String
  certificates : List CertOut
  risk_score : Int
  risk_label : String
  risk_reasons : List String
  recommendation : String
  recommendation_reason : String
deriving DecidableEq

/-- The value returned by `analyze_apk`: the failure dict
`{ok: false, error}` (carrying nothing but the message) or the success
findings dict (`ok: true`). -/
inductive AnalyzeResult : Type where
  | failure (error : String) : AnalyzeResult
  | success (f : Findings) : AnalyzeResult
deriving DecidableEq

/-- The findings assembled on src/app.py lines 83-231, once the five
unguarded getters (package, app name, version name, version code,
permissions) have returned values `pn`, `an`, `vn`, `vc`, `ps`. -/
def buildFindings (a : APK) (pn an vn vc : String)
    (ps : Option (List String)) : Findings where
  package_name := pn
  app_name := an
  version_name := vn
  version_code := vc
  debuggable := extract_debuggable a
  permissions := permsOf ps
  dangerous_permissions := dangerousOf (permsOf ps)
  receivers := extract_components a.get_receivers
  services := extract_components a.get_services
  activities := extract_components a.get_activities
  urls := harvest_urls a.get_manifest_text a.get_files
  certificates := extract_certificates a.get_certificates
  risk_score := risk_score_of (extract_debuggable a) (dangerousOf (permsOf ps))
    (harvest_urls a.get_manifest_text a.get_files)
  risk_label := risk_label_of (risk_score_of (extract_debuggable a)
    (dangerousOf (permsOf ps)) (harvest_urls a.get_manifest_text a.get_files))
  risk_reasons := (score_pre (extract_debuggable a) (dangerousOf (permsOf ps))
    (harvest_urls a.get_manifest_text a.get_files)).2
  recommendation := (recommendationOf (risk_label_of (risk_score_of
    (extract_debuggable a) (dangerousOf (permsOf ps))
    (harvest_urls a.get_manifest_text a.get_files)))).1
  recommendation_reason := (recommendationOf (risk_label_of (risk_score_of
    (extract_debuggable a) (dangerousOf (permsOf ps))
    (harvest_urls a.get_manifest_text a.get_files)))).2

/-- `analyze_apk` (src/app.py lines 71-233). `andro_ok` models the module
flag `ANDRO_OK`; `parse` models the call `APK(str(apk_path))`, with
`.error e` a raised parse exception carrying message `e`. The outer
`Except` of the result is an exception escaping `analyze_apk` itself: the
getters on lines 86-89 and 98 are called outside any `try`, so their
exceptions propagate to the caller. -/
def analyze_apk (andro_ok : Bool) (parse : Except Err APK) :
    Except Err AnalyzeResult :=
  if !andro_ok then
    .ok (.failure
      "Androguard is not installed. Please install dependencies from requirements.txt")
  else
    match parse with
    | .error e => .ok (.failure ("Failed to parse APK: " ++ e))
    | .ok a =>
      match a.get_package with
      | .error e => .error e
      | .ok pn =>
        match a.get_app_name with
        | .error e => .error e
        | .ok an =>
          match a.get_androidversion_name with
          | .error e => .error e
          | .ok vn =>
            match a.get_androidversion_code with
            | .error e => .error e
            | .ok vc =>
              match a.get_permissions with
              | .error e => .error e
              | .ok ps => .ok (.success (buildFindings a pn an vn vc ps))

/-! ## Inversion of a successful analysis -/

theorem analyze_ok_inv {a : APK} {f : Findings}
    (h : analyze_apk true (.ok a) = .ok (.success f)) :
    ∃ pn an vn vc ps,
      a.get_package = .ok pn ∧ a.get_app_name = .ok an ∧
      a.get_androidversion_name = .ok vn ∧
      a.get_androidversion_code = .ok vc ∧
      a.get_permissions = .ok ps ∧
      f = buildFindings a pn an vn vc ps := by
  simp only [analyze_apk, Bool.not_true, Bool.false_eq_true, if_false] at h
  rcases hpn : a.get_package with e | pn <;> rw [hpn] at h
  · simp at h
  rcases han : a.get_app_name with e | an <;> rw [han] at h
  · simp at h
  rcases hvn : a.get_androidversion_name with e | vn <;> rw [hvn] at h
  · simp at h
  rcases hvc : a.get_androidversion_code with e | vc <;> rw [hvc] at h
  · simp at h
  rcases hps : a.get_permissions with e | ps <;> rw [hps] at h
  · simp at h
  simp only [Except.ok.injEq, AnalyzeResult.success.injEq] at h
  exact ⟨pn, an, vn, vc, ps, rfl, rfl, rfl, rfl, rfl, h.symm⟩

/-! ## Scorer facts -/

theorem score_pre_facts (dbg : Option Bool) (dp urls : List String) :
    0 ≤ (score_pre dbg dp urls).1 ∧ (score_pre dbg dp urls).1 ≤ 6 ∧
    ((score_pre dbg dp urls).1 = 0 ↔ (score_pre dbg dp urls).2 = []) ∧
    (score_pre dbg dp urls).2.length ≤ 5 ∧
    ((score_pre dbg dp urls).2.length : Int) ≤ (score_pre dbg dp urls).1 := by
  simp only [score_pre]
  split_ifs <;> simp_all

theorem score_pre_none_eq_false (dp urls : List String) :
    score_pre none dp urls = score_pre (some false) dp urls := by
  simp [score_pre]

theorem reason_debuggable_not_mem_of_none (dp urls : List String) :
    reason_debuggable ∉ (score_pre none dp urls).2 := by
  simp only [score_pre]
  split_ifs <;>
    simp_all [reason_debuggable, reason_many_dangerous, reason_some_dangerous,
      reason_many_urls, reason_overlay, reason_install_pkgs]

/-! ## Idempotence of `to_jsonable` -/

mutual

theorem to_jsonable_idem_aux :
    ∀ o : PyObj, to_jsonable (to_jsonable o) = to_jsonable o
  | .pynone => rfl
  | .pybool _ => rfl
  | .pyint _ => rfl
  | .pyfloat _ => rfl
  | .pystr _ => rfl
  | .pypath _ => rfl
  | .pybytes _ => rfl
  | .pydict kvs => by
    simp only [to_jsonable]
    exact congrArg PyObj.pydict (to_jsonable_pairs_idem_aux kvs)
  | .pylist xs => by
    simp only [to_jsonable]
    exact congrArg PyObj.pylist (to_jsonable_elems_idem_aux xs)
  | .pyobj _ => rfl

theorem to_jsonable_elems_idem_aux :
    ∀ xs : List PyObj, to_jsonable_elems (to_jsonable_elems xs) = to_jsonable_elems xs
  | [] => rfl
  | x :: xs => by
    simp only [to_jsonable_elems]
    rw [to_jsonable_idem_aux x, to_jsonable_elems_idem_aux xs]

theorem to_jsonable_pairs_idem_aux :
    ∀ kvs : List (PyObj × PyObj),
      to_jsonable_pairs (to_jsonable_pairs kvs) = to_jsonable_pairs kvs
  | [] => rfl
  | (k, v) :: rest => by
    simp only [to_jsonable_pairs, pyStr]
    rw [to_jsonable_idem_aux v, to_jsonable_pairs_idem_aux rest]

end

/-- C8: the JSON-ification function `to_jsonable` is idempotent: applying
it twice gives the same result as applying it once, because its output is
built from None, booleans, numbers, strings, lists of such outputs, and
dicts with string keys and such outputs as values — each a fixed point of
the function. -/
theorem c8_to_jsonable_idempotent (o : PyObj) :
    to_jsonable (to_jsonable o) = to_jsonable o :=
  to_jsonable_idem_aux o

/-- C3: for every input whose package parse fails with message `e`,
`analyze_apk` returns exactly the failure dict carrying `ok=false` and the
parser failure message — and nothing else (the `failure` constructor holds
only the message) — performing none of the downstream extraction, scoring
or recommendation steps. -/
theorem c3_parse_failure_short_circuits (e : Err) :
    analyze_apk true (.error e) =
      .ok (.failure ("Failed to parse APK: " ++ e)) := rfl

/-- C2: for every successful analysis, `risk_score` is clamped to [0,10]
and `risk_label` is the pure threshold function of `risk_score`:
`score ≤ 2 → Low`, `3 ≤ score ≤ 5 → Medium`, `score ≥ 6 → High`. -/
theorem c2_risk_score_bounds_and_label (a : APK) (f : Findings)
    (h : analyze_apk true (.ok a) = .ok (.success f)) :
    0 ≤ f.risk_score ∧ f.risk_score ≤ 10 ∧
    f.risk_label = risk_label_of f.risk_score ∧
    (f.risk_score ≤ 2 → f.risk_label = "Low") ∧
    (3 ≤ f.risk_score ∧ f.risk_score ≤ 5 → f.risk_label = "Medium") ∧
    (6 ≤ f.risk_score → f.risk_label = "High") := by
  obtain ⟨pn, an, vn, vc, ps, _, _, _, _, _, hf⟩ := analyze_ok_inv h
  subst hf
  simp only [buildFindings]
  refine ⟨le_max_left 0 _, max_le (by norm_num) (min_le_left 10 _), trivial,
    ?_, ?_, ?_⟩
  · intro h2
    simp [risk_label_of, h2]
  · rintro ⟨h3, h5⟩
    have h2 : ¬ risk_score_of (extract_debuggable a) (dangerousOf (permsOf ps))
        (harvest_urls a.get_manifest_text a.get_files) ≤ 2 := by omega
    simp [risk_label_of, h2, h5]
  · intro h6
    have h2 : ¬ risk_score_of (extract_debuggable a) (dangerousOf (permsOf ps))
        (harvest_urls a.get_manifest_text a.get_files) ≤ 2 := by omega
    have h5 : ¬ risk_score_of (extract_debuggable a) (dangerousOf (permsOf ps))
        (harvest_urls a.get_manifest_text a.get_files) ≤ 5 := by omega
    simp [risk_label_of, h2, h5]

/-- C9: for every successful analysis, `risk_score` is 0 exactly when
`risk_reasons` is empty; every rule that adds to the score appends exactly
one reason, so `risk_reasons` has at most 5 entries and its length is at
most the pre-clamp score. -/
theorem c9_reasons_score_relation (a : APK) (f : Findings)
    (h : analyze_apk true (.ok a) = .ok (.success f)) :
    (f.risk_score = 0 ↔ f.risk_reasons = []) ∧
    f.risk_reasons.length ≤ 5 ∧
    (f.risk_reasons.length : Int) ≤
      (score_pre f.debuggable f.dangerous_permissions f.urls).1 := by
  obtain ⟨pn, an, vn, vc, ps, _, _, _, _, _, hf⟩ := analyze_ok_inv h
  subst hf
  obtain ⟨h0, h6, hiff, hlen5, hlen⟩ :=
    score_pre_facts (extract_debuggable a) (dangerousOf (permsOf ps))
      (harvest_urls a.get_manifest_text a.get_files)
  simp only [buildFindings]
  refine ⟨?_, hlen5, hlen⟩
  rw [← hiff]
  simp only [risk_score_of]
  omega

/-- C10: in a successful result, `debuggable` is a boolean or null and
nothing else (enforced by its `Option Bool` type); when `is_debuggable()`
raises, the field is null (not false), and in that case the debuggable
scoring rule does not fire: its reason is absent and score and reasons are
exactly those of a non-debuggable app. -/
theorem c10_debuggable_error_neutral (a : APK) (f : Findings) (e : Err)
    (h : analyze_apk true (.ok a) = .ok (.success f))
    (he : a.is_debuggable = .error e) :
    f.debuggable = none ∧
    reason_debuggable ∉ f.risk_reasons ∧
    f.risk_score = risk_score_of (some false) f.dangerous_permissions f.urls ∧
    f.risk_reasons = (score_pre (some false) f.dangerous_permissions f.urls).2 := by
  obtain ⟨pn, an, vn, vc, ps, _, _, _, _, _, hf⟩ := analyze_ok_inv h
  subst hf
  have hd : extract_debuggable a = none := by
    simp [extract_debuggable, he]
  simp only [buildFindings, hd]
  refine ⟨trivial, reason_debuggable_not_mem_of_none _ _, ?_, ?_⟩
  · simp only [risk_score_of, score_pre_none_eq_false]
  · simp only [score_pre_none_eq_false]

/-- C7: every successful result carries exactly one
(recommendation, recommendation_reason) pair, chosen solely by
`risk_label` as a pure function matching the fixed three-entry table. -/
theorem c7_recommendation_table (a : APK) (f : Findings)
    (h : analyze_apk true (.ok a) = .ok (.success f)) :
    (f.recommendation, f.recommendation_reason) = recommendationOf f.risk_label ∧
    ((f.risk_label = "Low" ∧
        f.recommendation = "Generally safe (Low risk)." ∧
        f.recommendation_reason =
          "No significant risk factors detected. Verify the source.") ∨
     (f.risk_label = "Medium" ∧
        f.recommendation = "Recommended installation (Medium risk)." ∧
        f.recommendation_reason =
          "Multiple risk factors detected. Verify the source and review permissions before installation.") ∨
     (f.risk_label = "High" ∧
        f.recommendation = "Install caution is advised (High risk)." ∧
        f.recommendation_reason =
          "Dangerous permissions or behavior detected. Avoid installing from untrusted sources.")) := by
  obtain ⟨pn, an, vn, vc, ps, _, _, _, _, _, hf⟩ := analyze_ok_inv h
  subst hf
  simp only [buildFindings]
  refine ⟨trivial, ?_⟩
  by_cases h2 : risk_score_of (extract_debuggable a) (dangerousOf (permsOf ps))
      (harvest_urls a.get_manifest_text a.get_files) ≤ 2
  · left
    simp [risk_label_of, recommendationOf, h2]
  · by_cases h5 : risk_score_of (extract_debuggable a) (dangerousOf (permsOf ps))
        (harvest_urls a.get_manifest_text a.get_files) ≤ 5
    · right; left
      simp [risk_label_of, recommendationOf, h2, h5]
    · right; right
      simp [risk_label_of, recommendationOf, h2, h5]

/-- C5: for every successful analysis, `dangerous_permissions` is a subset
of `permissions`; both lists are sorted ascending and duplicate-free; and a
permission is dangerous exactly when it starts (case-sensitive prefix
match) with one of the 18 fixed `android.permission.*` entries of the
allow-list. -/
theorem c5_dangerous_subset_sorted_nodup (a : APK) (f : Findings)
    (h : analyze_apk true (.ok a) = .ok (.success f)) :
    (∀ p ∈ f.dangerous_permissions, p ∈ f.permissions) ∧
    f.permissions.Sorted (· ≤ ·) ∧ f.permissions.Nodup ∧
    f.dangerous_permissions.Sorted (· ≤ ·) ∧ f.dangerous_permissions.Nodup ∧
    (∀ p, p ∈ f.dangerous_permissions ↔
      p ∈ f.permissions ∧ ∃ dp ∈ dangerous_perm_table, pyStartsWith p dp = true) ∧
    dangerous_perm_table.length = 18 := by
  obtain ⟨pn, an, vn, vc, ps, _, _, _, _, _, hf⟩ := analyze_ok_inv h
  subst hf
  simp only [buildFindings]
  have hd_mem : ∀ p, p ∈ dangerousOf (permsOf ps) ↔
      p ∈ permsOf ps ∧ isDangerous p = true := by
    intro p
    rw [dangerousOf, mem_pysorted, List.mem_filter]
  refine ⟨?_, sorted_pySortedSet _, nodup_pySortedSet _, sorted_pysorted _,
    ?_, ?_, by decide⟩
  · intro p hp
    exact ((hd_mem p).1 hp).1
  · exact nodup_pysorted (List.Nodup.filter _ (nodup_pySortedSet _))
  · intro p
    rw [hd_mem p, isDangerous, List.any_eq_true]

/-- C6: for every manifest text and internal file listing, the harvested
`urls` pool the pattern matches from both sources into one collection
(non-string file entries ignored, source not tracked), contain no
duplicates, are sorted ascending, and re-running the extraction on the
same input yields the identical result. -/
theorem c6_urls_pooled_dedup_sorted (m : String) (fs : List FileEntry) :
    (harvest_urls (.ok m) (.ok fs)).Nodup ∧
    (harvest_urls (.ok m) (.ok fs)).Sorted (· ≤ ·) ∧
    (∀ u, u ∈ harvest_urls (.ok m) (.ok fs) ↔
      (u ∈ url_findall m ∨ ∃ s, FileEntry.str s ∈ fs ∧ u ∈ url_findall s)) ∧
    harvest_urls (.ok m) (.ok fs) = harvest_urls (.ok m) (.ok fs) ∧
    (∀ p : Except Err APK, analyze_apk true p = analyze_apk true p) := by
  have hh : harvest_urls (.ok m) (.ok fs) =
      pySortedSet (url_findall m ++ fs.flatMap (fun fe => match fe with
        | .str s => url_findall s
        | .nonstr _ => [])) := rfl
  refine ⟨hh ▸ nodup_pySortedSet _, hh ▸ sorted_pySortedSet _, ?_, rfl,
    fun _ => rfl⟩
  intro u
  rw [hh, mem_pySortedSet, List.mem_append, List.mem_flatMap]
  constructor
  · rintro (h1 | ⟨fe, hfe, hu⟩)
    · exact Or.inl h1
    · rcases fe with s | o
      · exact Or.inr ⟨s, hfe, hu⟩
      · simp at hu
  · rintro (h1 | ⟨s, hs, hu⟩)
    · exact Or.inl h1
    · exact Or.inr ⟨.str s, hs, hu⟩

/-- C4: for facts with debuggable true, exactly 4 dangerous permissions of
which one contains SYSTEM_ALERT_WINDOW and one contains
REQUEST_INSTALL_PACKAGES, and 20 extracted URLs, the scorer yields
risk score 1+2+1+1+1 = 6 and label High. -/
theorem c4_scenario_debuggable_four_dangerous (dbg : Option Bool)
    (dp urls : List String)
    (hdbg : dbg = some true) (hlen : dp.length = 4)
    (hsaw : dp.any (fun p => strContains p "SYSTEM_ALERT_WINDOW") = true)
    (hrip : dp.any (fun p => strContains p "REQUEST_INSTALL_PACKAGES") = true)
    (hurls : urls.length = 20) :
    risk_score_of dbg dp urls = 1 + 2 + 1 + 1 + 1 ∧
    risk_label_of (risk_score_of dbg dp urls) = "High" := by
  have hpre : (score_pre dbg dp urls).1 = 6 := by
    simp [score_pre, hdbg, hlen, hsaw, hrip, hurls]
  have hsc : risk_score_of dbg dp urls = 6 := by
    rw [risk_score_of, hpre]
    decide
  refine ⟨by rw [hsc]; norm_num, ?_⟩
  rw [hsc]
  decide

/-! ## C1: which fields are extracted defensively -/

/-- A parser on which only the unguarded `get_package()` raises; every
other getter succeeds. -/
def apkPackageRaises : APK where
  get_package := .error "boom"
  get_app_name := .ok "Example"
  get_androidversion_name := .ok "1.0"
  get_androidversion_code := .ok "7"
  is_debuggable := .ok false
  get_permissions := .ok (some ["android.permission.CAMERA"])
  get_receivers := .ok (some [])
  get_services := .ok (some [])
  get_activities := .ok (some [])
  get_manifest_text := .ok "manifest"
  get_files := .ok []
  get_certificates := .ok (some [])

/-- C1 counterexample: `get_package()` raising does not resolve the field
to a safe default with the result still `ok=true` — the exception escapes
`analyze_apk` and no result is produced at all. The getters on src/app.py
lines 86-89 and 98 sit outside every `try` block. -/
theorem c1_counterexample_package_field_aborts :
    analyze_apk true (.ok apkPackageRaises) = .error "boom" := rfl

/-- C1 (amended): only the guarded fields — the debuggable flag, the
component lists, the manifest text, the file list and the certificates —
are extracted defensively. Whenever the five unguarded getters (package
name, app name, version name, version code, permissions) succeed, the
analysis produces an `ok=true` result even if every guarded getter raises,
and each failing guarded field resolves to its safe default: null for
debuggable, empty lists for components and certificates, and no URL
contribution from a failing source. -/
theorem c1_amended_guarded_fields_default (a : APK)
    (h1 : ∃ v, a.get_package = .ok v)
    (h2 : ∃ v, a.get_app_name = .ok v)
    (h3 : ∃ v, a.get_androidversion_name = .ok v)
    (h4 : ∃ v, a.get_androidversion_code = .ok v)
    (h5 : ∃ v, a.get_permissions = .ok v) :
    ∃ f, analyze_apk true (.ok a) = .ok (.success f) ∧
      (∀ e, a.is_debuggable = .error e → f.debuggable = none) ∧
      (∀ e, a.get_receivers = .error e → f.receivers = []) ∧
      (∀ e, a.get_services = .error e → f.services = []) ∧
      (∀ e, a.get_activities = .error e → f.activities = []) ∧
      (∀ e, a.get_certificates = .error e → f.certificates = []) ∧
      (∀ e1 e2, a.get_manifest_text = .error e1 → a.get_files = .error e2 →
        f.urls = []) := by
  obtain ⟨pn, hpn⟩ := h1
  obtain ⟨an, han⟩ := h2
  obtain ⟨vn, hvn⟩ := h3
  obtain ⟨vc, hvc⟩ := h4
  obtain ⟨ps, hps⟩ := h5
  refine ⟨buildFindings a pn an vn vc ps, ?_, ?_, ?_, ?_, ?_, ?_, ?_⟩
  · simp [analyze_apk, hpn, han, hvn, hvc, hps]
  · intro e he
    simp [buildFindings, extract_debuggable, he]
  · intro e he
    simp [buildFindings, extract_components, he]
  · intro e he
    simp [buildFindings, extract_components, he]
  · intro e he
    simp [buildFindings, extract_components, he]
  · intro e he
    simp [buildFindings, extract_certificates, he]
  · intro e1 e2 he1 he2
    show harvest_urls a.get_manifest_text a.get_files = []
    rw [he1, he2]
    rfl

/-! ## Concrete instances for the witnesses -/

/-- A parser where the five unguarded getters succeed and every guarded
getter raises. -/
def apkGuardedFail : APK where
  get_package := .ok "com.example.app"
  get_app_name := .ok "Example"
  get_androidversion_name := .ok "1.0"
  get_androidversion_code := .ok "7"
  is_debuggable := .error "dbg boom"
  get_permissions := .ok (some ["android.permission.CAMERA"])
  get_receivers := .error "recv boom"
  get_services := .error "svc boom"
  get_activities := .error "act boom"
  get_manifest_text := .error "manifest boom"
  get_files := .error "files boom"
  get_certificates := .error "cert boom"

theorem c1_amended_guarded_fields_default_witness :
    (∃ v, apkGuardedFail.get_package = .ok v) ∧
    (∃ f, analyze_apk true (.ok apkGuardedFail) = .ok (.success f) ∧
      (∀ e, apkGuardedFail.is_debuggable = .error e → f.debuggable = none) ∧
      (∀ e, apkGuardedFail.get_receivers = .error e → f.receivers = []) ∧
      (∀ e, apkGuardedFail.get_services = .error e → f.services = []) ∧
      (∀ e, apkGuardedFail.get_activities = .error e → f.activities = []) ∧
      (∀ e, apkGuardedFail.get_certificates = .error e → f.certificates = []) ∧
      (∀ e1 e2, apkGuardedFail.get_manifest_text = .error e1 →
        apkGuardedFail.get_files = .error e2 → f.urls = [])) :=
  ⟨⟨"com.example.app", rfl⟩,
    c1_amended_guarded_fields_default apkGuardedFail ⟨"com.example.app", rfl⟩
      ⟨"Example", rfl⟩ ⟨"1.0", rfl⟩ ⟨"7", rfl⟩
      ⟨some ["android.permission.CAMERA"], rfl⟩⟩

/-- A parser instance on which every getter succeeds. -/
def apkGood : APK where
  get_package := .ok "com.example.app"
  get_app_name := .ok "Example"
  get_androidversion_name := .ok "1.0"
  get_androidversion_code := .ok "7"
  is_debuggable := .ok false
  get_permissions := .ok (some ["android.permission.CAMERA",
    "android.permission.INTERNET"])
  get_receivers := .ok (some ["r.Boot"])
  get_services := .ok (some [])
  get_activities := .ok (some ["a.Main"])
  get_manifest_text := .ok "manifest"
  get_files := .ok [.str "res/a.xml", .nonstr "axml-object"]
  get_certificates := .ok (some [.good (some "iss") (some "sub") (some "42")])

/-- The findings `analyze_apk` assembles for `apkGood`. -/
def fGood : Findings :=
  buildFindings apkGood "com.example.app" "Example" "1.0" "7"
    (some ["android.permission.CAMERA", "android.permission.INTERNET"])

/-- The findings `analyze_apk` assembles for `apkGuardedFail`. -/
def fGuarded : Findings :=
  buildFindings apkGuardedFail "com.example.app" "Example" "1.0" "7"
    (some ["android.permission.CAMERA"])

theorem c2_risk_score_bounds_and_label_witness :
    0 ≤ fGood.risk_score ∧ fGood.risk_score ≤ 10 ∧
    fGood.risk_label = risk_label_of fGood.risk_score ∧
    (fGood.risk_score ≤ 2 → fGood.risk_label = "Low") ∧
    (3 ≤ fGood.risk_score ∧ fGood.risk_score ≤ 5 → fGood.risk_label = "Medium") ∧
    (6 ≤ fGood.risk_score → fGood.risk_label = "High") :=
  c2_risk_score_bounds_and_label apkGood fGood rfl

theorem c5_dangerous_subset_sorted_nodup_witness :
    (∀ p ∈ fGood.dangerous_permissions, p ∈ fGood.permissions) ∧
    fGood.permissions.Sorted (· ≤ ·) ∧ fGood.permissions.Nodup ∧
    fGood.dangerous_permissions.Sorted (· ≤ ·) ∧
    fGood.dangerous_permissions.Nodup ∧
    (∀ p, p ∈ fGood.dangerous_permissions ↔
      p ∈ fGood.permissions ∧
        ∃ dp ∈ dangerous_perm_table, pyStartsWith p dp = true) ∧
    dangerous_perm_table.length = 18 :=
  c5_dangerous_subset_sorted_nodup apkGood fGood rfl

theorem c7_recommendation_table_witness :
    (fGood.recommendation, fGood.recommendation_reason) =
      recommendationOf fGood.risk_label ∧
    ((fGood.risk_label = "Low" ∧
        fGood.recommendation = "Generally safe (Low risk)." ∧
        fGood.recommendation_reason =
          "No significant risk factors detected. Verify the source.") ∨
     (fGood.risk_label = "Medium" ∧
        fGood.recommendation = "Recommended installation (Medium risk)." ∧
        fGood.recommendation_reason =
          "Multiple risk factors detected. Verify the source and review permissions before installation.") ∨
     (fGood.risk_label = "High" ∧
        fGood.recommendation = "Install caution is advised (High risk)." ∧
        fGood.recommendation_reason =
          "Dangerous permissions or behavior detected. Avoid installing from untrusted sources.")) :=
  c7_recommendation_table apkGood fGood rfl

theorem c9_reasons_score_relation_witness :
    (fGood.risk_score = 0 ↔ fGood.risk_reasons = []) ∧
    fGood.risk_reasons.length ≤ 5 ∧
    (fGood.risk_reasons.length : Int) ≤
      (score_pre fGood.debuggable fGood.dangerous_permissions fGood.urls).1 :=
  c9_reasons_score_relation apkGood fGood rfl

theorem c10_debuggable_error_neutral_witness :
    fGuarded.debuggable = none ∧
    reason_debuggable ∉ fGuarded.risk_reasons ∧
    fGuarded.risk_score =
      risk_score_of (some false) fGuarded.dangerous_permissions fGuarded.urls ∧
    fGuarded.risk_reasons =
      (score_pre (some false) fGuarded.dangerous_permissions fGuarded.urls).2 :=
  c10_debuggable_error_neutral apkGuardedFail fGuarded "dbg boom" rfl rfl

/-- Four dangerous permissions for the C4 scenario. -/
def dp4 : List String :=
  ["android.permission.SYSTEM_ALERT_WINDOW",
   "android.permission.REQUEST_INSTALL_PACKAGES",
   "android.permission.SEND_SMS",
   "android.permission.CAMERA"]

/-- Twenty URL strings for the C4 scenario. -/
def urls20 : List String :=
  ["u01", "u02", "u03", "u04", "u05", "u06", "u07", "u08", "u09", "u10",
   "u11", "u12", "u13", "u14", "u15", "u16", "u17", "u18", "u19", "u20"]

theorem c4_scenario_debuggable_four_dangerous_witness :
    (some true : Option Bool) = some true ∧ dp4.length = 4 ∧
    (dp4.any fun p => strContains p "SYSTEM_ALERT_WINDOW") = true ∧
    (dp4.any fun p => strContains p "REQUEST_INSTALL_PACKAGES") = true ∧
    urls20.length = 20 ∧
    risk_score_of (some true) dp4 urls20 = 1 + 2 + 1 + 1 + 1 ∧
    risk_label_of (risk_score_of (some true) dp4 urls20) = "High" :=
  ⟨rfl, rfl, by decide, by decide, rfl,
    (c4_scenario_debuggable_four_dangerous (some true) dp4 urls20 rfl rfl
      (by decide) (by decide) rfl).1,
    (c4_scenario_debuggable_four_dangerous (some true) dp4 urls20 rfl rfl
      (by decide) (by decide) rfl).2⟩
